import Mathlib

/-! Verification of the device configuration header `device/wokwi/config.h`.

The header is a flat table of preprocessor definitions.  It is embedded twice:
each object-like define becomes a Lean constant carrying the source's name and
literal, and the whole header becomes `configDefines`, the ordered table of
`#define` lines as the preprocessor sees them.

The components that consume the configuration (scheduler, sample assembly,
connection manager) have no source in `device/wokwi/config.h`; they are
modelled from the specification and marked as such.
-/

set_option autoImplicit false

namespace Config

/-! ## The header's constants (config.h lines 5-27) -/

/-- Line 5: `#define WIFI_SSID "Wokwi-GUEST"`. -/
def WIFI_SSID : String := "Wokwi-GUEST"

/-- Line 6: `#define WIFI_PASS ""`. -/
def WIFI_PASS : String := ""

/-- Line 11: `#define MQTT_HOST "10.232.149.86"`. -/
def MQTT_HOST : String := "10.232.149.86"

/-- Line 12: `#define MQTT_PORT 1883`. -/
def MQTT_PORT : Int := 1883

/-- Line 15: `#define MQTT_TOPIC "iot/shrek-esp32/telemetry"`. -/
def MQTT_TOPIC : String := "iot/shrek-esp32/telemetry"

/-- Line 18: `#define DEVICE_ID "shrek-esp32"`. -/
def DEVICE_ID : String := "shrek-esp32"

/-- Line 21: `#define PIN_DHT   15`. -/
def PIN_DHT : Int := 15

/-- Line 22: `#define PIN_LUX   34`. -/
def PIN_LUX : Int := 34

/-- Line 23: `#define PIN_SOUND 35`. -/
def PIN_SOUND : Int := 35

/-- Line 24: `#define PIN_AIR   32`. -/
def PIN_AIR : Int := 32

/-- Line 27: `#define TELEMETRY_INTERVAL 5000` (milliseconds). -/
def TELEMETRY_INTERVAL : Int := 5000

/-! ## The header as a table of definitions -/

/-- Replacement text of an object-like define in the header: nothing (the
include guard), a string literal, or an integer literal. -/
inductive DefineValue where
  | empty : DefineValue
  | str : String → DefineValue
  | int : Int → DefineValue
  deriving DecidableEq, Repr

/-- Every `#define` of the header, in source order (lines 2-27). -/
def configDefines : List (String × DefineValue) :=
  [ ("CONFIG_H", DefineValue.empty),
    ("WIFI_SSID", DefineValue.str WIFI_SSID),
    ("WIFI_PASS", DefineValue.str WIFI_PASS),
    ("MQTT_HOST", DefineValue.str MQTT_HOST),
    ("MQTT_PORT", DefineValue.int MQTT_PORT),
    ("MQTT_TOPIC", DefineValue.str MQTT_TOPIC),
    ("DEVICE_ID", DefineValue.str DEVICE_ID),
    ("PIN_DHT", DefineValue.int PIN_DHT),
    ("PIN_LUX", DefineValue.int PIN_LUX),
    ("PIN_SOUND", DefineValue.int PIN_SOUND),
    ("PIN_AIR", DefineValue.int PIN_AIR),
    ("TELEMETRY_INTERVAL", DefineValue.int TELEMETRY_INTERVAL) ]

/-- What the preprocessor substitutes for `name` after the header has been
included: the replacement text of its define, or `none` when the header does
not define it. -/
def lookupDefine (name : String) : Option DefineValue :=
  (configDefines.find? (fun d => d.1 == name)).map Prod.snd

/-- A name defined by the header with a string literal. -/
def lookupString (name : String) : Option String :=
  match lookupDefine name with
  | some (DefineValue.str s) => some s
  | _ => none

/-- A name defined by the header with an integer literal. -/
def lookupInt (name : String) : Option Int :=
  match lookupDefine name with
  | some (DefineValue.int n) => some n
  | _ => none

/-- The four sensor channels named by the header's "Sensor Pins" block
(lines 20-24): DHT (temperature/humidity), light, sound, air quality. -/
inductive Channel where
  | tempHumidity : Channel
  | lightLevel : Channel
  | soundLevel : Channel
  | airQuality : Channel
  deriving DecidableEq, Repr

/-- All sensor channels. -/
def Channel.all : List Channel :=
  [Channel.tempHumidity, Channel.lightLevel, Channel.soundLevel, Channel.airQuality]

/-- Name of the define that carries a channel's pin (lines 21-24). -/
def Channel.pinName : Channel → String
  | Channel.tempHumidity => "PIN_DHT"
  | Channel.lightLevel => "PIN_LUX"
  | Channel.soundLevel => "PIN_SOUND"
  | Channel.airQuality => "PIN_AIR"

/-- The channel-to-pin mapping the header defines (lines 21-24). -/
def Channel.pin : Channel → Int
  | Channel.tempHumidity => PIN_DHT
  | Channel.lightLevel => PIN_LUX
  | Channel.soundLevel => PIN_SOUND
  | Channel.airQuality => PIN_AIR

/-! ## Reading the string constants -/

/-- Segments of a string between occurrences of the separator `sep`. -/
def segments (sep : Char) (s : String) : List String :=
  (s.toList.splitOn sep).map String.mk

/-- The integer a string of decimal digits denotes. -/
def decimalValue (f : String) : Nat :=
  f.toList.foldl (fun n c => 10 * n + (c.toNat - '0'.toNat)) 0

/-- A single field of a dotted quad: one or more decimal digits whose value is
at most 255. -/
def isOctet (f : String) : Bool :=
  !f.toList.isEmpty && f.toList.all Char.isDigit && decide (decimalValue f ≤ 255)

/-- Dotted-quad IPv4 syntax: exactly four octet fields separated by `.`. -/
def isDottedQuad (s : String) : Bool :=
  let fs := segments '.' s
  decide (fs.length = 4) && fs.all isOctet

end Config

/-! ## Components modelled from the specification -/

namespace Scheduler

/-- Modelled from the spec: the Scheduler's timer (section 4.2, "single
repeating timer with fixed period"), whose source is not part of
`device/wokwi/config.h`.  Armed at time `start`, it fires once every `period`
milliseconds: `tickTime period start k` is the time of the `k`-th tick, and
index `0` is the arming instant itself. -/
def tickTime (period start : Int) : Nat → Int
  | 0 => start
  | k + 1 => tickTime period start k + period

end Scheduler

namespace ConnectionManager

/-- Modelled from the spec: the configured parameters of the reconnect backoff
(section 4.4), the delay after the first failure and the ceiling. -/
structure BackoffConfig where
  initial : Nat
  ceiling : Nat
  deriving DecidableEq, Repr

/-- Modelled from the spec: the capped exponential backoff of section 4.4
("double each failure up to a maximum ceiling, then hold"), whose source is not
part of `device/wokwi/config.h`.  `backoffDelay cfg n` is the wait scheduled
after `n` consecutive failures; no failure means no wait. -/
def backoffDelay (cfg : BackoffConfig) : Nat → Nat
  | 0 => 0
  | 1 => min cfg.initial cfg.ceiling
  | n + 2 => min (2 * backoffDelay cfg (n + 1)) cfg.ceiling

/-- Modelled from the spec: `ConnectionState` of section 3. -/
inductive ConnectionState where
  | Disconnected : ConnectionState
  | Connecting : ConnectionState
  | Connected : ConnectionState
  | Backoff : ConnectionState
  deriving DecidableEq, Repr

/-- Modelled from the spec: what `publish` reports to its caller
(section 4.4). -/
inductive PublishResult where
  | sent : PublishResult
  | transportFailure : PublishResult
  | notConnected : PublishResult
  deriving DecidableEq, Repr

/-- Modelled from the spec: `ConnectionManager.publish` of section 4.4, whose
source is not part of `device/wokwi/config.h`.  `send` is the transport: it
tells whether the synchronous, timeout-bounded send of a sample succeeded.  In
state `Connected` the send is attempted and a failure moves the state to
`Disconnected`; in every other state publish is a no-op reporting "not
connected". -/
def publish {α : Type} (send : α → Bool) (st : ConnectionState) (sample : α) :
    ConnectionState × PublishResult :=
  match st with
  | ConnectionState.Connected =>
      if send sample then (ConnectionState.Connected, PublishResult.sent)
      else (ConnectionState.Disconnected, PublishResult.transportFailure)
  | other => (other, PublishResult.notConnected)

end ConnectionManager

namespace Telemetry

/-- Modelled from the spec: `ReadError` of sections 4.1 and 7 (timeout or
hardware fault). -/
inductive ReadError where
  | timeout : ReadError
  | hardwareFault : ReadError
  deriving DecidableEq, Repr

/-- Modelled from the spec: one entry of a sample's mapping, a numeric value or
the explicit "unavailable" marker (section 3). -/
inductive Reading (ν : Type) where
  | value : ν → Reading ν
  | unavailable : Reading ν
  deriving DecidableEq, Repr

/-- Modelled from the spec: `ChannelConfig` of section 3, a channel name and
acquisition parameters the core does not look into. -/
structure ChannelConfig (π : Type) where
  name : String
  params : π
  deriving DecidableEq, Repr

/-- Modelled from the spec: `TelemetrySample` of section 3. -/
structure TelemetrySample (ν : Type) where
  device_id : String
  timestamp : Nat
  readings : List (String × Reading ν)
  deriving DecidableEq, Repr

/-- Modelled from the spec: what section 4.3 records for one read, the value on
success and "unavailable" on `ReadError`. -/
def recordReading {ν : Type} : Except ReadError ν → Reading ν
  | Except.ok v => Reading.value v
  | Except.error _ => Reading.unavailable

/-- Modelled from the spec: the acquisition pass of section 4.3, whose source
is not part of `device/wokwi/config.h`.  It visits the configured channels in
order, calls `read` on each one and appends the entry to the mapping built so
far; a failed read does not stop the pass. -/
def acquire {π ν : Type} (read : ChannelConfig π → Except ReadError ν) :
    List (ChannelConfig π) → List (String × Reading ν) → List (String × Reading ν)
  | [], acc => acc
  | c :: cs, acc => acquire read cs (acc ++ [(c.name, recordReading (read c))])

/-- Modelled from the spec: TelemetrySample assembly of section 4.3; the device
identifier and the timestamp are attached once per sample. -/
def assemble {π ν : Type} (read : ChannelConfig π → Except ReadError ν)
    (device_id : String) (timestamp : Nat) (channels : List (ChannelConfig π)) :
    TelemetrySample ν :=
  { device_id := device_id, timestamp := timestamp, readings := acquire read channels [] }

/-- The channel configuration the header's pin block populates: one
`ChannelConfig` per sensor channel, its acquisition parameter being the pin. -/
def deviceChannels : List (ChannelConfig Int) :=
  Config.Channel.all.map (fun c => { name := c.pinName, params := c.pin })

end Telemetry

/-! ## Helper lemmas -/

namespace Scheduler

theorem tickTime_closed_form (period start : Int) (k : Nat) :
    tickTime period start k = start + (k : Int) * period := by
  induction k with
  | zero => simp [tickTime]
  | succ k ih =>
    rw [tickTime, ih]
    push_cast
    ring

end Scheduler

namespace ConnectionManager

theorem backoffDelay_le_ceiling (cfg : BackoffConfig) (n : Nat) :
    backoffDelay cfg n ≤ cfg.ceiling := by
  match n with
  | 0 => simp [backoffDelay]
  | 1 => simp [backoffDelay]
  | n + 2 => simp [backoffDelay]

theorem backoffDelay_succ (cfg : BackoffConfig) (n : Nat) (hn : 1 ≤ n) :
    backoffDelay cfg (n + 1) = min (2 * backoffDelay cfg n) cfg.ceiling := by
  match n, hn with
  | n + 1, _ => rw [backoffDelay]

end ConnectionManager

namespace Telemetry

theorem acquire_eq_append_map {π ν : Type} (read : ChannelConfig π → Except ReadError ν)
    (cs : List (ChannelConfig π)) (acc : List (String × Reading ν)) :
    acquire read cs acc = acc ++ cs.map (fun c => (c.name, recordReading (read c))) := by
  induction cs generalizing acc with
  | nil => simp [acquire]
  | cons c cs ih => simp [acquire, ih]

end Telemetry

/-! ## The claims -/

/-- C1: splitting `MQTT_TOPIC` on `/` yields exactly the three segments
`iot`, `DEVICE_ID`, `telemetry`; equivalently the topic is the device
identifier between the prefix `iot/` and the suffix `/telemetry`. -/
theorem device_id_is_topic_segment :
    Config.segments '/' Config.MQTT_TOPIC = ["iot", Config.DEVICE_ID, "telemetry"] ∧
      Config.MQTT_TOPIC = "iot/" ++ Config.DEVICE_ID ++ "/telemetry" := by
  constructor <;> decide

/-- C2: `TELEMETRY_INTERVAL` is strictly positive and equal to 5000 ms, and a
repeating timer of that period armed at time 0 fires its `k`-th tick
(`k ≥ 1`) at exactly `k * 5000` ms, each tick 5000 ms after the one before
(the arming instant for the first tick). -/
theorem telemetry_interval_ticks (k : Nat) (hk : 1 ≤ k) :
    0 < Config.TELEMETRY_INTERVAL ∧ Config.TELEMETRY_INTERVAL = 5000 ∧
      Scheduler.tickTime Config.TELEMETRY_INTERVAL 0 k = (k : Int) * 5000 ∧
      Scheduler.tickTime Config.TELEMETRY_INTERVAL 0 (k + 1)
        - Scheduler.tickTime Config.TELEMETRY_INTERVAL 0 k = 5000 ∧
      Scheduler.tickTime Config.TELEMETRY_INTERVAL 0 k
        - Scheduler.tickTime Config.TELEMETRY_INTERVAL 0 (k - 1) = 5000 := by
  obtain ⟨j, rfl⟩ : ∃ j, k = j + 1 := ⟨k - 1, by omega⟩
  refine ⟨by decide, rfl, ?_, ?_, ?_⟩
  · rw [Scheduler.tickTime_closed_form, Config.TELEMETRY_INTERVAL]
    ring
  · rw [Scheduler.tickTime_closed_form, Scheduler.tickTime_closed_form,
      Config.TELEMETRY_INTERVAL]
    push_cast
    ring
  · rw [Nat.add_sub_cancel, Scheduler.tickTime_closed_form,
      Scheduler.tickTime_closed_form, Config.TELEMETRY_INTERVAL]
    push_cast
    ring

/-- Witness for C2: the third tick fires at 15000 ms, 5000 ms after the second
and 5000 ms before the fourth. -/
theorem telemetry_interval_ticks_witness :
    Scheduler.tickTime Config.TELEMETRY_INTERVAL 0 3 = 15000 ∧
      Scheduler.tickTime Config.TELEMETRY_INTERVAL 0 4
        - Scheduler.tickTime Config.TELEMETRY_INTERVAL 0 3 = 5000 :=
  ⟨(telemetry_interval_ticks 3 (by decide)).2.2.1,
   (telemetry_interval_ticks 3 (by decide)).2.2.2.1⟩

/-- C3: the header defines every item of the configuration surface: the
network credentials, broker host, broker port, topic, device identifier and
sampling interval, and a pin for each of the four sensor channels, so the
channel-to-pin mapping is total. -/
theorem config_surface_complete :
    Config.lookupString "WIFI_SSID" = some Config.WIFI_SSID ∧
      Config.lookupString "WIFI_PASS" = some Config.WIFI_PASS ∧
      Config.lookupString "MQTT_HOST" = some Config.MQTT_HOST ∧
      Config.lookupInt "MQTT_PORT" = some Config.MQTT_PORT ∧
      Config.lookupString "MQTT_TOPIC" = some Config.MQTT_TOPIC ∧
      Config.lookupString "DEVICE_ID" = some Config.DEVICE_ID ∧
      Config.lookupInt "TELEMETRY_INTERVAL" = some Config.TELEMETRY_INTERVAL ∧
      (∀ c : Config.Channel, c ∈ Config.Channel.all) ∧
      Config.Channel.all.length = 4 ∧
      (∀ c : Config.Channel, Config.lookupInt c.pinName = some c.pin) := by
  refine ⟨by decide, by decide, by decide, by decide, by decide, by decide, by decide,
    ?_, by decide, ?_⟩
  · intro c; cases c <;> decide
  · intro c; cases c <;> decide

/-- C4: for every number `n ≥ 1` of consecutive failures the backoff delay is
non-decreasing, `d n ≤ d (n+1)`, and bounded by the configured ceiling; it
doubles while the doubled delay fits under the ceiling and holds once the
ceiling is reached. -/
theorem backoff_monotone_bounded (cfg : ConnectionManager.BackoffConfig) (n : Nat)
    (hn : 1 ≤ n) :
    ConnectionManager.backoffDelay cfg n ≤ ConnectionManager.backoffDelay cfg (n + 1) ∧
      ConnectionManager.backoffDelay cfg n ≤ cfg.ceiling ∧
      (2 * ConnectionManager.backoffDelay cfg n ≤ cfg.ceiling →
        ConnectionManager.backoffDelay cfg (n + 1)
          = 2 * ConnectionManager.backoffDelay cfg n) ∧
      (ConnectionManager.backoffDelay cfg n = cfg.ceiling →
        ConnectionManager.backoffDelay cfg (n + 1) = cfg.ceiling) := by
  have hle := ConnectionManager.backoffDelay_le_ceiling cfg n
  rw [ConnectionManager.backoffDelay_succ cfg n hn]
  refine ⟨?_, hle, ?_, ?_⟩
  · exact le_min (by omega) hle
  · intro h; exact min_eq_left h
  · intro h; rw [h]; exact min_eq_right (by omega)

/-- Witness for C4: with initial delay 1000 and ceiling 8000 the delay after
the third failure is at most the delay after the fourth and at most 8000. -/
theorem backoff_monotone_bounded_witness :
    ConnectionManager.backoffDelay ⟨1000, 8000⟩ 3
        ≤ ConnectionManager.backoffDelay ⟨1000, 8000⟩ 4 ∧
      ConnectionManager.backoffDelay ⟨1000, 8000⟩ 3 ≤ 8000 :=
  ⟨(backoff_monotone_bounded ⟨1000, 8000⟩ 3 (by decide)).1,
   (backoff_monotone_bounded ⟨1000, 8000⟩ 3 (by decide)).2.1⟩

/-- C5: for every sample, `publish` in state `Connected` leaves the state
`Connected` when the transport succeeds and moves it to `Disconnected` when the
transport fails; no other state can result. -/
theorem publish_connected_transitions {α : Type} (send : α → Bool) (sample : α) :
    (send sample = true →
        (ConnectionManager.publish send ConnectionManager.ConnectionState.Connected sample).1
          = ConnectionManager.ConnectionState.Connected) ∧
      (send sample = false →
        (ConnectionManager.publish send ConnectionManager.ConnectionState.Connected sample).1
          = ConnectionManager.ConnectionState.Disconnected) ∧
      ((ConnectionManager.publish send ConnectionManager.ConnectionState.Connected sample).1
          = ConnectionManager.ConnectionState.Connected ∨
        (ConnectionManager.publish send ConnectionManager.ConnectionState.Connected sample).1
          = ConnectionManager.ConnectionState.Disconnected) := by
  cases h : send sample <;> simp [ConnectionManager.publish, h]

/-- Witness for C5: a transport that always fails moves a connected manager to
`Disconnected`. -/
theorem publish_connected_transitions_witness :
    (ConnectionManager.publish (fun _ : Nat => false)
        ConnectionManager.ConnectionState.Connected 7).1
      = ConnectionManager.ConnectionState.Disconnected :=
  (publish_connected_transitions (fun _ : Nat => false) 7).2.1 rfl

/-- C7: whatever the per-channel reads return, the assembled sample has exactly
one entry per configured channel, in the configured order: the channel's name
with the numeric value where the read succeeded and with the "unavailable"
marker where it failed; the mapping is never shorter than the channel list. -/
theorem sample_has_entry_per_channel {π ν : Type}
    (read : Telemetry.ChannelConfig π → Except Telemetry.ReadError ν)
    (device_id : String) (timestamp : Nat) (channels : List (Telemetry.ChannelConfig π)) :
    (Telemetry.assemble read device_id timestamp channels).readings.length
        = channels.length ∧
      (Telemetry.assemble read device_id timestamp channels).readings.map Prod.fst
        = channels.map Telemetry.ChannelConfig.name ∧
      (∀ (i : Nat) (h : i < channels.length),
        (Telemetry.assemble read device_id timestamp channels).readings[i]?
          = some (channels[i].name,
              match read channels[i] with
              | Except.ok v => Telemetry.Reading.value v
              | Except.error _ => Telemetry.Reading.unavailable)) ∧
      (Telemetry.assemble read device_id timestamp channels).device_id = device_id ∧
      (Telemetry.assemble read device_id timestamp channels).timestamp = timestamp := by
  refine ⟨?_, ?_, ?_, rfl, rfl⟩
  · simp [Telemetry.assemble, Telemetry.acquire_eq_append_map]
  · simp [Telemetry.assemble, Telemetry.acquire_eq_append_map]
  · intro i h
    simp only [Telemetry.assemble, Telemetry.acquire_eq_append_map, List.nil_append,
      List.getElem?_map, List.getElem?_eq_getElem h, Option.map_some']
    cases read channels[i] <;> rfl

/-- Witness for C7: on the device's four channels, with the air-quality read
failing, the sample still has four entries and the fourth is "unavailable". -/
theorem sample_has_entry_per_channel_witness :
    (Telemetry.assemble
        (fun c : Telemetry.ChannelConfig Int =>
          if c.params = Config.PIN_AIR then Except.error Telemetry.ReadError.timeout
          else Except.ok c.params)
        Config.DEVICE_ID 5000 Telemetry.deviceChannels).readings.length = 4 :=
  (sample_has_entry_per_channel
    (fun c : Telemetry.ChannelConfig Int =>
      if c.params = Config.PIN_AIR then Except.error Telemetry.ReadError.timeout
      else Except.ok c.params)
    Config.DEVICE_ID 5000 Telemetry.deviceChannels).1

/-- C8: `MQTT_HOST` is a well-formed dotted-quad IPv4 address: splitting it on
`.` yields exactly four fields, each non-empty, made of decimal digits only and
denoting an integer between 0 and 255. -/
theorem mqtt_host_is_dotted_quad :
    Config.isDottedQuad Config.MQTT_HOST = true ∧
      (Config.segments '.' Config.MQTT_HOST).length = 4 ∧
      (∀ f ∈ Config.segments '.' Config.MQTT_HOST,
        f ≠ "" ∧ f.toList.all Char.isDigit = true ∧ Config.decimalValue f ≤ 255) ∧
      (Config.segments '.' Config.MQTT_HOST).map Config.decimalValue
        = [10, 232, 149, 86] := by
  have hseg : Config.segments '.' Config.MQTT_HOST = ["10", "232", "149", "86"] := by
    decide
  refine ⟨by decide, by decide, ?_, by decide⟩
  rw [hseg]
  intro f hf
  simp only [List.mem_cons, List.mem_singleton, List.not_mem_nil, or_false] at hf
  rcases hf with rfl | rfl | rfl | rfl <;> decide

/-- C9: the channel-to-pin mapping is injective and every pin is a
non-negative number: `PIN_DHT`, `PIN_LUX`, `PIN_SOUND` and `PIN_AIR` are
pairwise distinct, so no two sensor channels read the same pin. -/
theorem channel_pins_injective :
    Function.Injective Config.Channel.pin ∧
      (∀ c : Config.Channel, 0 ≤ c.pin) ∧
      [Config.PIN_DHT, Config.PIN_LUX, Config.PIN_SOUND, Config.PIN_AIR].Pairwise
        (fun a b => a ≠ b) := by
  refine ⟨?_, ?_, by decide⟩
  · intro a b h
    cases a <;> cases b <;> first | rfl | exact absurd h (by decide)
  · intro c; cases c <;> decide
